import Mathlib

/-!
# Verification of the gateway-rs dispatch pipeline

A shallow embedding of the core of `gateway-rs` (a LoRaWAN packet-forwarder
gateway bridge): the Router's routing-table maintenance
(`src/router/mod.rs`), the routing-match logic (`src/router/routing.rs`),
and the Gateway's UDP-event and downlink handling (`src/gateway.rs`).

External collaborators that the core only consumes (filter blobs, URI
parsing, signing, the Semtech UDP runtime, `link_packet.rs`) are modelled
as opaque parameters or fields, exactly as the core treats them.
-/

namespace GatewayRs

/-- An `(app_eui, dev_eui)` pair from a LoRaWAN join request (two u64s). -/
structure Eui where
  app_eui : Nat
  dev_eui : Nat
deriving DecidableEq, Repr

/-- `helium_proto::routing_information::Data`: the tagged routing key of an
uplink, either an EUI pair or a 32-bit DevAddr. -/
inductive RoutingData
  | eui (e : Eui)
  | devaddr (d : Nat)
deriving DecidableEq, Repr

/-- `helium_proto::RoutingInformation`: an optional routing key. -/
structure RoutingInformation where
  data : Option RoutingData
deriving DecidableEq, Repr

/-- Modelled from the spec: `EuiFilter` (from `src/router/filter.rs`, not in
src/) is an opaque membership test over EUI pairs; the core only calls
`contains`, so we embed a filter as its membership function. -/
def EuiFilter : Type := Eui → Bool

/-- Modelled from the spec: `DevAddrFilter` is an opaque membership test over
DevAddr space; embedded as its membership function. -/
def DevAddrFilter : Type := Nat → Bool

/-- `EuiFilter::contains`. -/
def EuiFilter.contains (f : EuiFilter) (e : Eui) : Bool := f e

/-- `DevAddrFilter::contains`. -/
def DevAddrFilter.contains (f : DevAddrFilter) (d : Nat) : Bool := f d

/-- A router client handle (`services::router::Client<Channel>`): an opaque
gRPC endpoint handle, identified here by an id. -/
structure RouterClient where
  id : Nat
deriving DecidableEq, Repr

/-- Errors of the crate's `error::Error`; the core only propagates them, so
a single opaque inhabitant per failure is enough. -/
inductive RtError
  | parse
  | uri
  | service
  | sign
  | other
deriving DecidableEq, Repr

/-- A binary blob from the control plane (`bytes`). -/
abbrev Blob : Type := List Nat

/-- `router::routing::Routing`: one row of the routing table. -/
structure Routing where
  filters : List EuiFilter
  subnets : List DevAddrFilter
  clients : List RouterClient

/-- `Routing::matches_routing_data` (src/router/routing.rs, lines 16-23):
dispatch on the key tag, `any` over the corresponding filter list. -/
def Routing.matches_routing_data (r : Routing) (routing_data : RoutingData) : Bool :=
  match routing_data with
  | .eui e => r.filters.any fun filter => filter.contains e
  | .devaddr dev_addr => r.subnets.any fun filter => filter.contains dev_addr

/-- `helium_proto::Routing`: one raw control-plane row
(`oui`, `filters: [bytes]`, `subnets: [bytes]`, `addresses: [{uri: bytes}]`). -/
structure ProtoRouting where
  oui : Nat
  filters : List Blob
  subnets : List Blob
  addresses : List Blob
deriving DecidableEq, Repr

/-- Rust's `collect::<Result<Vec<_>, _>>` over a list of fallible items:
fail fast on the first error. -/
def collectResults {α β : Type} (f : α → Except RtError β) :
    List α → Except RtError (List β)
  | [] => .ok []
  | a :: l => do
    let b ← f a
    let bs ← collectResults f l
    pure (b :: bs)

/-- Modelled from the spec: `Routing::from_proto` (called at
src/router/mod.rs line 119 but not defined under src/). Per spec section 4.2,
building a `RoutingEntry` parses each filter blob, parses each URI, and
instantiates a router client per URI; if any sub-step fails the row fails.
The parsers and the client constructor are the opaque collaborators
`EuiFilter::from_bin`, `DevAddrFilter::from_bin`, `Uri::try_from` and
`mk_router_client`, taken as parameters. -/
def Routing.from_proto (parse_eui : Blob → Except RtError EuiFilter)
    (parse_devaddr : Blob → Except RtError DevAddrFilter)
    (parse_uri : Blob → Except RtError Nat)
    (mk_client : Nat → Except RtError RouterClient)
    (r : ProtoRouting) : Except RtError Routing := do
  let filters ← collectResults parse_eui r.filters
  let subnets ← collectResults parse_devaddr r.subnets
  let clients ← collectResults
    (fun address => do
      let uri ← parse_uri address
      mk_client uri) r.addresses
  pure { filters := filters, subnets := subnets, clients := clients }

/-- `helium_proto::RoutingResponse`: a height plus a list of rows. -/
structure RoutingResponse where
  height : Nat
  routings : List ProtoRouting

/-- The `LinkPacket` body relevant to the Router (`packet.routing`). -/
structure Packet where
  routing : Option RoutingInformation

/-- Modelled from the spec: `LinkPacket` (from `src/link_packet.rs`, not in
src/). The core consumes it through `gateway_mac`, `packet.routing`,
`is_longfi()` and `to_pull_resp(use_rx2)`; the latter two are opaque to the
core and embedded as fields (`longfi` and the partial conversion
`pull_resp`). -/
structure LinkPacket where
  gateway_mac : Nat
  packet : Packet
  longfi : Bool
  pull_resp : Bool → Option Nat

/-- `LinkPacket::is_longfi`. -/
def LinkPacket.is_longfi (p : LinkPacket) : Bool := p.longfi

/-- `LinkPacket::to_pull_resp(use_rx2)`: the Semtech pull-response form for
the requested window, when one exists (opaque payload, here a `Nat`). -/
def LinkPacket.to_pull_resp (p : LinkPacket) (use_rx2 : Bool) : Option Nat :=
  p.pull_resp use_rx2

/-- The signed state-channel envelope
(`BlockchainStateChannelMessageV1`), opaque to the Router's control flow. -/
structure Message where
  raw : Nat
deriving DecidableEq, Repr

/-- The Router's mutable state (`struct Router`, the fields the handlers
touch): the table height, the OUI-keyed table (the `HashMap` contents as an
association list in iteration order), and the configured default clients. -/
structure RouterState where
  routing_height : Nat
  clients : List (Nat × Routing)
  default_clients : List RouterClient

/-- Lookup by OUI in the table contents (`HashMap::get`). -/
def lookupOui (m : List (Nat × Routing)) (k : Nat) : Option Routing :=
  (m.find? fun p => p.1 = k).map Prod.snd

/-- `HashMap::insert` on the table contents: replace every binding of the
key in place, or append a fresh binding. -/
def insertOui (m : List (Nat × Routing)) (k : Nat) (v : Routing) :
    List (Nat × Routing) :=
  if m.any fun p => p.1 = k then
    m.map fun p => if p.1 = k then (k, v) else p
  else m ++ [(k, v)]

/-- The `for routing in &routing_response.routings` loop body of
`Router::handle_routing_update` as a fold: a row that builds is inserted
keyed by its OUI, a row that fails to build is skipped (warning). -/
def apply_routings (from_proto : ProtoRouting → Except RtError Routing)
    (m : List (Nat × Routing)) (rows : List ProtoRouting) :
    List (Nat × Routing) :=
  rows.foldl
    (fun m routing =>
      match from_proto routing with
      | .ok client => insertOui m routing.oui client
      | .error _ => m) m

/-- `Router::handle_routing_update` (src/router/mod.rs, lines 109-132):
warn when the height is not strictly greater than the current one (the
returned `Bool`), apply every row, then set `routing_height` to the
response's height unconditionally. -/
def handle_routing_update (from_proto : ProtoRouting → Except RtError Routing)
    (s : RouterState) (routing_response : RoutingResponse) :
    RouterState × Bool :=
  let warned := decide (routing_response.height ≤ s.routing_height)
  ({ s with
      clients := apply_routings from_proto s.clients routing_response.routings,
      routing_height := routing_response.height },
    warned)

/-- Processing a sequence of routing responses in order. -/
def process_updates (from_proto : ProtoRouting → Except RtError Routing)
    (s : RouterState) (rs : List RoutingResponse) : RouterState :=
  rs.foldl (fun s r => (handle_routing_update from_proto s r).1) s

/-- The last-writer-wins result for one OUI over a flat list of rows: each
row for that OUI that builds replaces the previous value, each row that
fails to build leaves it in place, rows for other OUIs are irrelevant. -/
def lastWriter (from_proto : ProtoRouting → Except RtError Routing)
    (oui : Nat) (rows : List ProtoRouting) (init : Option Routing) :
    Option Routing :=
  rows.foldl
    (fun acc row =>
      if row.oui = oui then
        match from_proto row with
        | .ok client => some client
        | .error _ => acc
      else acc) init

/-- `Router::router_clients_for_uplink` (src/router/mod.rs, lines 167-186):
when the uplink carries routing data, collect the clients of every matching
table entry (`values().filter(..).flat_map(|r| r.clients)`); if that is
empty fall back to the default clients; an uplink without routing data
yields no clients at all. -/
def router_clients_for_uplink (s : RouterState) (uplink : LinkPacket) :
    List RouterClient :=
  match uplink.packet.routing with
  | some ⟨some routing_data⟩ =>
    let found : List RouterClient :=
      ((s.clients.map Prod.snd).filter
          fun routing => routing.matches_routing_data routing_data).flatMap
        fun routing => routing.clients
    if found.isEmpty then s.default_clients else found
  | _ => []

/-- The observable outcome of `Router::handle_uplink`: how many times the
signer was invoked, the fan-out tasks that were spawned (each carrying its
target client and the envelope it was given), and the returned `Result`. -/
structure UplinkOutcome where
  signAttempts : Nat
  spawned : List (RouterClient × Message)
  result : Except RtError Unit
deriving Repr

/-- `Router::handle_uplink` (src/router/mod.rs, lines 134-165): an uplink
without a routing field is dropped (`Ok`, nothing signed, nothing spawned);
otherwise the state-channel envelope is built and signed once
(`to_state_channel_message`, opaque, taken as the `sign_msg` parameter with
its errors propagated by `?`), and one fan-out task per target client is
spawned, each receiving a clone of that single envelope. -/
def handle_uplink (sign_msg : LinkPacket → Except RtError Message)
    (s : RouterState) (uplink : LinkPacket) : UplinkOutcome :=
  if uplink.packet.routing.isNone then
    { signAttempts := 0, spawned := [], result := .ok () }
  else
    match sign_msg uplink with
    | .error err => { signAttempts := 1, spawned := [], result := .error err }
    | .ok message =>
      { signAttempts := 1
        spawned := (router_clients_for_uplink s uplink).map fun client => (client, message)
        result := .ok () }

/-- One event of the Router main loop's `tokio::select!`
(src/router/mod.rs, lines 82-105): shutdown, a routing-stream message
(`Ok(Some(..))`, `Ok(None)` on clean closure, or `Err`), or an uplink. -/
inductive RouterEvent
  | shutdownFired
  | routingMsg (m : Except RtError (Option RoutingResponse))
  | uplinkMsg (m : Option LinkPacket)

/-- What one iteration of `Router::run` does with its event: keep looping
with a new state, return `Ok` (clean shutdown), or panic. -/
inductive StepOutcome
  | continueLoop (s : RouterState)
  | returnOk
  | panicked

/-- One iteration of the `Router::run` select loop (src/router/mod.rs,
lines 81-106): shutdown returns `Ok`; `Ok(Some(resp))` applies the routing
update and loops; `Ok(None)` (clean stream closure) only logs
("NO ROUTING RESPONSE?") and loops; a stream `Err` panics; an uplink (or a
closed uplinks channel) is handled and the loop continues. -/
def run_step (from_proto : ProtoRouting → Except RtError Routing)
    (sign_msg : LinkPacket → Except RtError Message)
    (s : RouterState) (event : RouterEvent) : StepOutcome :=
  match event with
  | .shutdownFired => .returnOk
  | .routingMsg (.ok (some routing_response)) =>
    .continueLoop (handle_routing_update from_proto s routing_response).1
  | .routingMsg (.ok none) => .continueLoop s
  | .routingMsg (.error _) => .panicked
  | .uplinkMsg (some packet) =>
    let _ := handle_uplink sign_msg s packet
    .continueLoop s
  | .uplinkMsg none => .continueLoop s

/-- `semtech_udp::server_runtime::tx_ack::Error`, restricted to the
constructors the Gateway distinguishes plus a stand-in for the rest. -/
inductive TxAckError
  | NONE
  | TOO_EARLY
  | TOO_LATE
  | otherAck
deriving DecidableEq, Repr

/-- `semtech_udp::server_runtime::Error`: an ack error or any other
transport error. -/
inductive SemtechError
  | ackError (e : TxAckError)
  | other
deriving DecidableEq, Repr

/-- The observable outcome of `Gateway::handle_downlink` when it does not
panic: how many RX2 dispatches were attempted and the returned `Result`. -/
structure DownlinkOutcome where
  rx2Attempts : Nat
  result : Except RtError Unit
deriving Repr

/-- `Gateway::handle_downlink` (src/gateway.rs, lines 88-132). The RX1
pull-response is unwrapped unconditionally (`none` models the panic). The
RX1 dispatch outcome `rx1_out` is matched: `TOO_EARLY`/`TOO_LATE` ack
errors trigger one RX2 attempt when the packet admits an RX2 form, whose
outcome `rx2_out` is swallowed in every case; every other RX1 outcome
(success, ack `NONE`, any other error) is terminal with no RX2 attempt. -/
def handle_downlink (downlink : LinkPacket)
    (rx1_out : Except SemtechError Unit) (rx2_out : Except SemtechError Unit) :
    Option DownlinkOutcome :=
  match downlink.to_pull_resp false with
  | none => none
  | some _ =>
    match rx1_out with
    | .error (.ackError .TOO_EARLY) | .error (.ackError .TOO_LATE) =>
      match downlink.to_pull_resp true with
      | some _ =>
        some { rx2Attempts := 1
               result :=
                 match rx2_out with
                 | .error (.ackError .NONE) => .ok ()
                 | .error _ => .ok ()
                 | .ok () => .ok () }
      | none => some { rx2Attempts := 0, result := .ok () }
    | .error (.ackError .NONE) => some { rx2Attempts := 0, result := .ok () }
    | .error _ => some { rx2Attempts := 0, result := .ok () }
    | .ok () => some { rx2Attempts := 0, result := .ok () }

/-- `semtech_udp::server_runtime::Event`, with payloads opaque. -/
inductive Event
  | unableToParseUdpFrame (buf : Blob)
  | newClient (mac addr : Nat)
  | updateClient (mac addr : Nat)
  | packetReceived (rxpk : Nat) (gateway_mac : Nat)
  | noClientWithMac (packet : Nat) (mac : Nat)
  | rawPacket (p : Nat)

/-- `Gateway::handle_udp_event` (src/gateway.rs, lines 56-86), observed
through what it sends on the `uplinks` queue: only a `PacketReceived` event
whose lift (`LinkPacket::from_push_data`, opaque, the `lift` parameter)
succeeds with a non-LongFi packet is enqueued; a LongFi packet and a failed
lift are dropped; every other event kind only logs. -/
def handle_udp_event (lift : Nat → Nat → Except RtError LinkPacket)
    (event : Event) : List LinkPacket :=
  match event with
  | .packetReceived rxpk gateway_mac =>
    match lift rxpk gateway_mac with
    | .ok packet => if packet.is_longfi then [] else [packet]
    | .error _ => []
  | _ => []

/-! ## Lemmas about the OUI-keyed table -/

theorem lookupOui_nil (k : Nat) : lookupOui [] k = none := rfl

theorem lookupOui_cons (p : Nat × Routing) (m : List (Nat × Routing)) (k : Nat) :
    lookupOui (p :: m) k = if p.1 = k then some p.2 else lookupOui m k := by
  by_cases hp : p.1 = k
  · simp [lookupOui, List.find?_cons_of_pos, hp]
  · simp [lookupOui, List.find?_cons_of_neg, hp]

theorem lookupOui_map_set_eq (m : List (Nat × Routing)) (k : Nat) (v : Routing)
    (hany : (m.any fun p => p.1 = k) = true) :
    lookupOui (m.map fun p => if p.1 = k then (k, v) else p) k = some v := by
  induction m with
  | nil => simp at hany
  | cons p m ih =>
    simp only [List.any_cons, Bool.or_eq_true, decide_eq_true_eq] at hany
    by_cases hp : p.1 = k
    · simp [List.map_cons, hp, lookupOui_cons]
    · have hm : (m.any fun p => p.1 = k) = true := by
        rcases hany with h | h
        · exact absurd h hp
        · exact h
      simp only [List.map_cons, if_neg hp, lookupOui_cons]
      exact ih hm

theorem lookupOui_map_set_ne (m : List (Nat × Routing)) (k k' : Nat) (v : Routing)
    (hne : k' ≠ k) :
    lookupOui (m.map fun p => if p.1 = k then (k, v) else p) k' = lookupOui m k' := by
  induction m with
  | nil => rfl
  | cons p m ih =>
    by_cases hp : p.1 = k
    · have h1 : ¬((k, v).1 = k') := fun h => hne h.symm
      have h2 : ¬(p.1 = k') := by rw [hp]; exact fun h => hne h.symm
      simp only [List.map_cons, if_pos hp, lookupOui_cons, if_neg h1, if_neg h2]
      exact ih
    · simp only [List.map_cons, if_neg hp, lookupOui_cons]
      by_cases hp' : p.1 = k'
      · rw [if_pos hp', if_pos hp']
      · rw [if_neg hp', if_neg hp']
        exact ih

theorem lookupOui_append_absent_eq (m : List (Nat × Routing)) (k : Nat) (v : Routing)
    (hany : (m.any fun p => p.1 = k) = false) :
    lookupOui (m ++ [(k, v)]) k = some v := by
  induction m with
  | nil => simp [lookupOui_cons]
  | cons p m ih =>
    simp only [List.any_cons, Bool.or_eq_false_iff, decide_eq_false_iff_not] at hany
    rw [List.cons_append, lookupOui_cons, if_neg hany.1]
    exact ih hany.2

theorem lookupOui_append_absent_ne (m : List (Nat × Routing)) (k k' : Nat) (v : Routing)
    (hne : k' ≠ k) :
    lookupOui (m ++ [(k, v)]) k' = lookupOui m k' := by
  induction m with
  | nil =>
    have h1 : ¬((k, v).1 = k') := fun h => hne h.symm
    simp [lookupOui_cons, h1, lookupOui_nil]
  | cons p m ih =>
    rw [List.cons_append, lookupOui_cons, lookupOui_cons]
    by_cases hp : p.1 = k'
    · rw [if_pos hp, if_pos hp]
    · rw [if_neg hp, if_neg hp]
      exact ih

/-- `HashMap::insert` seen through lookup: the inserted key maps to the new
value and every other key is untouched. -/
theorem lookupOui_insertOui (m : List (Nat × Routing)) (k k' : Nat) (v : Routing) :
    lookupOui (insertOui m k v) k' = if k' = k then some v else lookupOui m k' := by
  unfold insertOui
  by_cases hany : (m.any fun p => p.1 = k) = true
  · rw [if_pos hany]
    by_cases hk : k' = k
    · subst hk
      rw [if_pos rfl]
      exact lookupOui_map_set_eq m k' v hany
    · rw [if_neg hk]
      exact lookupOui_map_set_ne m k k' v hk
  · rw [if_neg hany]
    by_cases hk : k' = k
    · subst hk
      rw [if_pos rfl]
      exact lookupOui_append_absent_eq m k' v (Bool.eq_false_iff.mpr hany)
    · rw [if_neg hk]
      exact lookupOui_append_absent_ne m k k' v hk

/-- One routing update seen through lookup: applying a list of rows realizes
exactly the last-writer-wins semantics for every OUI. -/
theorem lookupOui_apply_routings (from_proto : ProtoRouting → Except RtError Routing)
    (rows : List ProtoRouting) :
    ∀ (m : List (Nat × Routing)) (oui : Nat),
      lookupOui (apply_routings from_proto m rows) oui =
        lastWriter from_proto oui rows (lookupOui m oui) := by
  induction rows with
  | nil => intro m oui; rfl
  | cons row rows ih =>
    intro m oui
    rcases hrow : from_proto row with err | client
    · have hstep : apply_routings from_proto m (row :: rows) =
          apply_routings from_proto m rows := by
        simp [apply_routings, hrow]
      have hlw : lastWriter from_proto oui (row :: rows) (lookupOui m oui) =
          lastWriter from_proto oui rows (lookupOui m oui) := by
        by_cases hk : row.oui = oui <;> simp [lastWriter, hrow, hk]
      rw [hstep, hlw]
      exact ih m oui
    · have hstep : apply_routings from_proto m (row :: rows) =
          apply_routings from_proto (insertOui m row.oui client) rows := by
        simp [apply_routings, hrow]
      have hlw : lastWriter from_proto oui (row :: rows) (lookupOui m oui) =
          lastWriter from_proto oui rows
            (lookupOui (insertOui m row.oui client) oui) := by
        rw [lookupOui_insertOui]
        by_cases hk : row.oui = oui
        · subst hk
          simp [lastWriter, hrow]
        · have hk' : ¬(oui = row.oui) := fun h => hk h.symm
          simp [lastWriter, hrow, hk, hk']
      rw [hstep, hlw]
      exact ih _ oui

theorem lastWriter_append (from_proto : ProtoRouting → Except RtError Routing)
    (oui : Nat) (l₁ l₂ : List ProtoRouting) (init : Option Routing) :
    lastWriter from_proto oui (l₁ ++ l₂) init =
      lastWriter from_proto oui l₂ (lastWriter from_proto oui l₁ init) := by
  simp [lastWriter, List.foldl_append]

/-- The final height of a fold of updates is the last response's height. -/
theorem process_updates_height (from_proto : ProtoRouting → Except RtError Routing) :
    ∀ (rs : List RoutingResponse) (hne : rs ≠ []) (s : RouterState),
      (process_updates from_proto s rs).routing_height = (rs.getLast hne).height := by
  intro rs
  induction rs with
  | nil => intro hne; exact absurd rfl hne
  | cons r rs ih =>
    intro hne s
    cases rs with
    | nil => simp [process_updates, handle_routing_update, List.getLast]
    | cons r' rs' =>
      rw [List.getLast_cons (by simp)]
      exact ih (by simp) _

/-- The final table of a fold of updates, through lookup: last-writer-wins
over the concatenation of all rows. -/
theorem process_updates_clients (from_proto : ProtoRouting → Except RtError Routing)
    (rs : List RoutingResponse) :
    ∀ (s : RouterState) (oui : Nat),
      lookupOui (process_updates from_proto s rs).clients oui =
        lastWriter from_proto oui (rs.flatMap RoutingResponse.routings)
          (lookupOui s.clients oui) := by
  induction rs with
  | nil => intro s oui; rfl
  | cons r rs ih =>
    intro s oui
    have step : lookupOui (handle_routing_update from_proto s r).1.clients oui =
        lastWriter from_proto oui r.routings (lookupOui s.clients oui) := by
      simpa [handle_routing_update] using
        lookupOui_apply_routings from_proto r.routings s.clients oui
    calc lookupOui (process_updates from_proto s (r :: rs)).clients oui
        = lookupOui (process_updates from_proto
            ((handle_routing_update from_proto s r).1) rs).clients oui := rfl
      _ = lastWriter from_proto oui (rs.flatMap RoutingResponse.routings)
            (lookupOui (handle_routing_update from_proto s r).1.clients oui) :=
          ih _ oui
      _ = lastWriter from_proto oui (rs.flatMap RoutingResponse.routings)
            (lastWriter from_proto oui r.routings (lookupOui s.clients oui)) := by
          rw [step]
      _ = lastWriter from_proto oui ((r :: rs).flatMap RoutingResponse.routings)
            (lookupOui s.clients oui) := by
          rw [List.flatMap_cons, lastWriter_append]

/-! ## The spec's match function, in the spec's words (section 4.3) -/

/-- Spec section 4.3, EUI key: the union — concatenation without
deduplication — of the router client lists of all entries one of whose
`EuiFilter`s contains the key. -/
def euiUnion (s : RouterState) (e : Eui) : List RouterClient :=
  s.clients.flatMap fun p =>
    if p.2.filters.any fun filter => filter.contains e then p.2.clients else []

/-- Spec section 4.3, DevAddr key: the analogous union over
`DevAddrFilter`s. -/
def devaddrUnion (s : RouterState) (d : Nat) : List RouterClient :=
  s.clients.flatMap fun p =>
    if p.2.subnets.any fun filter => filter.contains d then p.2.clients else []

theorem filter_flatMap_clients (l : List (Nat × Routing)) (p : Routing → Bool) :
    ((l.map Prod.snd).filter fun r => p r).flatMap (fun r => r.clients) =
      l.flatMap fun q => if p q.2 then q.2.clients else [] := by
  induction l with
  | nil => rfl
  | cons q l ih =>
    by_cases hq : p q.2 <;> simp [List.filter_cons, hq, ih]

/-! ## Fail-fast construction lemmas (for the row-skipping behavior) -/

theorem error_bind {α β : Type} (e : RtError) (f : α → Except RtError β) :
    (Except.error e >>= f : Except RtError β) = Except.error e := rfl

theorem ok_bind {α β : Type} (a : α) (f : α → Except RtError β) :
    (Except.ok a >>= f : Except RtError β) = f a := rfl

theorem collectResults_error_of_mem {α β : Type} (f : α → Except RtError β)
    (l : List α) (a : α) (ha : a ∈ l) (e : RtError) (hf : f a = .error e) :
    ∃ e', collectResults f l = .error e' := by
  induction l with
  | nil => cases ha
  | cons b l ih =>
    rcases hb : f b with eb | vb
    · exact ⟨eb, by simp [collectResults, hb, error_bind]⟩
    · rcases List.mem_cons.mp ha with h | h
      · rw [h] at hf
        rw [hb] at hf
        cases hf
      · rcases ih h with ⟨e', he'⟩
        exact ⟨e', by simp [collectResults, hb, he', ok_bind, error_bind]⟩

theorem from_proto_error_of_substep (parse_eui : Blob → Except RtError EuiFilter)
    (parse_devaddr : Blob → Except RtError DevAddrFilter)
    (parse_uri : Blob → Except RtError Nat)
    (mk_client : Nat → Except RtError RouterClient) (row : ProtoRouting)
    (hfail :
      (∃ b ∈ row.filters, ∃ e, parse_eui b = .error e) ∨
      (∃ b ∈ row.subnets, ∃ e, parse_devaddr b = .error e) ∨
      (∃ a ∈ row.addresses,
        (∃ e, parse_uri a = .error e) ∨
        (∃ u e, parse_uri a = .ok u ∧ mk_client u = .error e))) :
    ∃ e, Routing.from_proto parse_eui parse_devaddr parse_uri mk_client row =
      .error e := by
  unfold Routing.from_proto
  rcases hF : collectResults parse_eui row.filters with eF | vF
  · exact ⟨eF, by simp [hF, error_bind, ok_bind]⟩
  · rcases hS : collectResults parse_devaddr row.subnets with eS | vS
    · exact ⟨eS, by simp [hF, hS, error_bind, ok_bind]⟩
    · rcases hA : collectResults
          (fun address => do
            let uri ← parse_uri address
            mk_client uri) row.addresses with eA | vA
      · exact ⟨eA, by simp [hF, hS, hA, error_bind, ok_bind]⟩
      · exfalso
        rcases hfail with ⟨b, hb, e, he⟩ | ⟨b, hb, e, he⟩ | ⟨a, ha, hsub⟩
        · rcases collectResults_error_of_mem parse_eui row.filters b hb e he
            with ⟨e', h⟩
          rw [hF] at h
          cases h
        · rcases collectResults_error_of_mem parse_devaddr row.subnets b hb e he
            with ⟨e', h⟩
          rw [hS] at h
          cases h
        · have hstep : ∃ e,
              (do
                let uri ← parse_uri a
                mk_client uri : Except RtError RouterClient) = .error e := by
            rcases hsub with ⟨e, he⟩ | ⟨u, e, hu, he⟩
            · exact ⟨e, by simp [he, error_bind]⟩
            · exact ⟨e, by simp [hu, he, ok_bind]⟩
          rcases hstep with ⟨e, he⟩
          rcases collectResults_error_of_mem
              (fun address => do
                let uri ← parse_uri address
                mk_client uri) row.addresses a ha e he
            with ⟨e', h⟩
          rw [hA] at h
          cases h

theorem apply_routings_append (from_proto : ProtoRouting → Except RtError Routing)
    (m : List (Nat × Routing)) (l₁ l₂ : List ProtoRouting) :
    apply_routings from_proto m (l₁ ++ l₂) =
      apply_routings from_proto (apply_routings from_proto m l₁) l₂ := by
  simp [apply_routings, List.foldl_append]

/-- A row whose construction fails contributes nothing to the fold: the
update behaves as if the row were absent, so every other row still applies
and any prior entry for the failing row's OUI stays in place. -/
theorem apply_routings_skip (from_proto : ProtoRouting → Except RtError Routing)
    (row : ProtoRouting) (e : RtError) (hrow : from_proto row = .error e)
    (m : List (Nat × Routing)) (l₁ l₂ : List ProtoRouting) :
    apply_routings from_proto m (l₁ ++ row :: l₂) =
      apply_routings from_proto m (l₁ ++ l₂) := by
  rw [apply_routings_append, apply_routings_append]
  simp [apply_routings, hrow]

/-! ## Sample values (used by the concrete-input corollaries) -/

/-- A filter containing every EUI. -/
def fTrue : EuiFilter := fun _ => true

/-- A filter containing no EUI. -/
def fFalse : EuiFilter := fun _ => false

/-- A sample table row whose only filter matches nothing. -/
def sampleRouting : Routing :=
  { filters := [fFalse], subnets := [], clients := [⟨1⟩] }

/-- A sample Router state: height 10, one table entry at OUI 1, one
default client. -/
def sampleState : RouterState :=
  { routing_height := 10, clients := [(1, sampleRouting)],
    default_clients := [⟨9⟩] }

def sampleEui : Eui := ⟨1, 2⟩

/-- An uplink carrying an EUI routing key. -/
def sampleUplinkEui : LinkPacket :=
  { gateway_mac := 0, packet := ⟨some ⟨some (.eui sampleEui)⟩⟩,
    longfi := false, pull_resp := fun _ => none }

/-- An uplink whose routing field is present but carries no data. -/
def sampleUplinkNoData : LinkPacket :=
  { gateway_mac := 0, packet := ⟨some ⟨none⟩⟩,
    longfi := false, pull_resp := fun _ => none }

/-- An uplink with no routing information at all. -/
def sampleUplinkNoRouting : LinkPacket :=
  { gateway_mac := 0, packet := ⟨none⟩,
    longfi := false, pull_resp := fun _ => none }

/-- A downlink admitting both an RX1 and an RX2 pull-response form. -/
def sampleDownlink : LinkPacket :=
  { gateway_mac := 0, packet := ⟨none⟩,
    longfi := false, pull_resp := fun use_rx2 => if use_rx2 then some 2 else some 1 }

/-- A downlink admitting no RX1 pull-response form. -/
def sampleDownlinkNoRx1 : LinkPacket :=
  { gateway_mac := 0, packet := ⟨none⟩,
    longfi := false, pull_resp := fun _ => none }

/-- A row constructor that accepts every row, giving it one client. -/
def fpOk : ProtoRouting → Except RtError Routing :=
  fun _ => .ok { filters := [fTrue], subnets := [], clients := [⟨3⟩] }

/-- A row constructor that rejects every row. -/
def fpErr : ProtoRouting → Except RtError Routing := fun _ => .error .parse

/-- A signer that accepts every uplink. -/
def signOk : LinkPacket → Except RtError Message := fun _ => .ok ⟨7⟩

/-- A sample routing-response sequence with strictly increasing heights. -/
def sampleResponses : List RoutingResponse :=
  [⟨11, [⟨5, [], [], []⟩]⟩, ⟨12, [⟨5, [[0]], [], []⟩, ⟨6, [], [], []⟩]⟩]

theorem if_isEmpty_eq_if_nil {α : Type} [DecidableEq α] (X D : List α) :
    (if X.isEmpty then D else X) = (if X = [] then D else X) := by
  cases X <;> simp

/-! ## Claims -/

/-- C1: for every sequence of `RoutingResponse`s with strictly increasing
heights, after the Router processes them in order the routing table's
height equals the last response's height, and for every OUI the table's
entry is the last-writer-wins result over all rows in order: each row that
constructs replaces any prior entry for its OUI, and each row that fails to
construct is skipped, leaving any prior entry for its OUI in place. -/
theorem c1_routing_lww (from_proto : ProtoRouting → Except RtError Routing)
    (s : RouterState) (rs : List RoutingResponse) (hne : rs ≠ [])
    (hinc : List.Chain' (· < ·) (rs.map RoutingResponse.height)) :
    (process_updates from_proto s rs).routing_height = (rs.getLast hne).height ∧
    ∀ oui, lookupOui (process_updates from_proto s rs).clients oui =
      lastWriter from_proto oui (rs.flatMap RoutingResponse.routings)
        (lookupOui s.clients oui) :=
  ⟨process_updates_height from_proto rs hne s,
   fun oui => process_updates_clients from_proto rs s oui⟩

/-- Concrete instance of C1: two responses with heights 11 then 12. -/
theorem c1_witness :
    sampleResponses ≠ [] ∧
    List.Chain' (· < ·) (sampleResponses.map RoutingResponse.height) ∧
    (process_updates fpOk sampleState sampleResponses).routing_height = 12 ∧
    lookupOui (process_updates fpOk sampleState sampleResponses).clients 5 =
      lastWriter fpOk 5 (sampleResponses.flatMap RoutingResponse.routings)
        (lookupOui sampleState.clients 5) := by
  have h := c1_routing_lww fpOk sampleState sampleResponses
    (by simp [sampleResponses])
    (by simp [sampleResponses, List.chain'_cons])
  refine ⟨by simp [sampleResponses],
    by simp [sampleResponses, List.chain'_cons], ?_, h.2 5⟩
  rw [h.1]
  rfl

/-- C2 counterexample: at stored height 10, a response of height 7 is
processed; the stored height becomes 7 — strictly below the previous
height — so it is neither left unchanged nor monotonically non-decreasing;
the update is indeed logged (warning flag set). -/
theorem c2_counterexample :
    (handle_routing_update fpErr sampleState ⟨7, []⟩).1.routing_height = 7 ∧
    (handle_routing_update fpErr sampleState ⟨7, []⟩).1.routing_height <
      sampleState.routing_height ∧
    (handle_routing_update fpErr sampleState ⟨7, []⟩).2 = true :=
  ⟨rfl, by decide, by decide⟩

/-- C2 (amended): `handle_routing_update` warns exactly when the response
height is not strictly greater than the stored height, but it still applies
the entries and sets the stored height to the response's height
unconditionally — so the stored height can decrease. -/
theorem c2_amended (from_proto : ProtoRouting → Except RtError Routing)
    (s : RouterState) (resp : RoutingResponse) :
    (handle_routing_update from_proto s resp).1.routing_height = resp.height ∧
    ((handle_routing_update from_proto s resp).2 = true ↔
      resp.height ≤ s.routing_height) ∧
    (handle_routing_update from_proto s resp).1.clients =
      apply_routings from_proto s.clients resp.routings := by
  refine ⟨rfl, ?_, rfl⟩
  simp [handle_routing_update]

/-- C3: for an uplink carrying an EUI routing key the targeted router
clients are the union — concatenation without deduplication — of the client
lists of all entries having some `EuiFilter` containing the key, and the
default routers are targeted exactly when that union is empty; analogously
for a DevAddr key over the `DevAddrFilter`s. -/
theorem c3_match_union (s : RouterState) (uplink : LinkPacket) :
    (∀ e, uplink.packet.routing = some ⟨some (.eui e)⟩ →
      router_clients_for_uplink s uplink =
        if euiUnion s e = [] then s.default_clients else euiUnion s e) ∧
    (∀ d, uplink.packet.routing = some ⟨some (.devaddr d)⟩ →
      router_clients_for_uplink s uplink =
        if devaddrUnion s d = [] then s.default_clients else devaddrUnion s d) := by
  constructor
  · intro e h
    have hu : euiUnion s e =
        ((s.clients.map Prod.snd).filter fun routing =>
          routing.matches_routing_data (.eui e)).flatMap
          fun routing => routing.clients := by
      rw [filter_flatMap_clients s.clients
        (fun routing => routing.matches_routing_data (.eui e))]
      simp [euiUnion, Routing.matches_routing_data]
    simp only [router_clients_for_uplink, h]
    rw [← if_isEmpty_eq_if_nil, hu]
  · intro d h
    have hu : devaddrUnion s d =
        ((s.clients.map Prod.snd).filter fun routing =>
          routing.matches_routing_data (.devaddr d)).flatMap
          fun routing => routing.clients := by
      rw [filter_flatMap_clients s.clients
        (fun routing => routing.matches_routing_data (.devaddr d))]
      simp [devaddrUnion, Routing.matches_routing_data]
    simp only [router_clients_for_uplink, h]
    rw [← if_isEmpty_eq_if_nil, hu]

/-- Concrete instance of C3: the sample table's only filter rejects the
key, so the uplink falls back to the default routers. -/
theorem c3_witness :
    sampleUplinkEui.packet.routing = some ⟨some (.eui sampleEui)⟩ ∧
    router_clients_for_uplink sampleState sampleUplinkEui =
      (if euiUnion sampleState sampleEui = []
        then sampleState.default_clients else euiUnion sampleState sampleEui) :=
  ⟨rfl, (c3_match_union sampleState sampleUplinkEui).1 sampleEui rfl⟩

/-- C4: when the downlink admits an RX1 pull-response form, `handle_downlink`
does not panic, returns `Ok` whatever the dispatch outcomes, attempts RX2 at
most once, and attempts it exactly when the RX1 dispatch ended in a
`TOO_EARLY` or `TOO_LATE` ack error and the packet admits an RX2 form — in
particular never after RX1 success or an ack error `NONE` — and every
outcome of the RX2 attempt is terminal. -/
theorem c4_rx2_policy (downlink : LinkPacket)
    (rx1_out rx2_out : Except SemtechError Unit) (p : Nat)
    (hp : downlink.to_pull_resp false = some p) :
    ∃ out, handle_downlink downlink rx1_out rx2_out = some out ∧
      out.result = .ok () ∧ out.rx2Attempts ≤ 1 ∧
      (out.rx2Attempts = 1 ↔
        ((rx1_out = .error (.ackError .TOO_EARLY) ∨
          rx1_out = .error (.ackError .TOO_LATE)) ∧
          (downlink.to_pull_resp true).isSome = true)) := by
  unfold handle_downlink
  rw [hp]
  cases rx1_out with
  | ok u =>
    cases u
    exact ⟨⟨0, .ok ()⟩, rfl, rfl, by simp, by simp⟩
  | error e =>
    cases e with
    | other => exact ⟨⟨0, .ok ()⟩, rfl, rfl, by simp, by simp⟩
    | ackError a =>
      cases a with
      | NONE => exact ⟨⟨0, .ok ()⟩, rfl, rfl, by simp, by simp⟩
      | otherAck => exact ⟨⟨0, .ok ()⟩, rfl, rfl, by simp, by simp⟩
      | TOO_EARLY =>
        rcases hq : downlink.to_pull_resp true with _ | q
        · exact ⟨⟨0, .ok ()⟩, rfl, rfl, by simp, by simp⟩
        · cases rx2_out with
          | ok u =>
            cases u
            exact ⟨⟨1, .ok ()⟩, rfl, rfl, by simp, by simp⟩
          | error e2 =>
            cases e2 with
            | ackError a2 =>
              cases a2 <;> exact ⟨⟨1, .ok ()⟩, rfl, rfl, by simp, by simp⟩
            | other => exact ⟨⟨1, .ok ()⟩, rfl, rfl, by simp, by simp⟩
      | TOO_LATE =>
        rcases hq : downlink.to_pull_resp true with _ | q
        · exact ⟨⟨0, .ok ()⟩, rfl, rfl, by simp, by simp⟩
        · cases rx2_out with
          | ok u =>
            cases u
            exact ⟨⟨1, .ok ()⟩, rfl, rfl, by simp, by simp⟩
          | error e2 =>
            cases e2 with
            | ackError a2 =>
              cases a2 <;> exact ⟨⟨1, .ok ()⟩, rfl, rfl, by simp, by simp⟩
            | other => exact ⟨⟨1, .ok ()⟩, rfl, rfl, by simp, by simp⟩

/-- Concrete instance of C4: RX1 ends `TOO_LATE` on a downlink admitting
both windows, so exactly one RX2 attempt is made and the result is `Ok`. -/
theorem c4_witness :
    sampleDownlink.to_pull_resp false = some 1 ∧
    ∃ out, handle_downlink sampleDownlink
        (.error (.ackError .TOO_LATE)) (.ok ()) = some out ∧
      out.result = .ok () ∧ out.rx2Attempts ≤ 1 ∧
      (out.rx2Attempts = 1 ↔
        (((Except.error (SemtechError.ackError .TOO_LATE) :
            Except SemtechError Unit) = .error (.ackError .TOO_EARLY) ∨
          (Except.error (SemtechError.ackError .TOO_LATE) :
            Except SemtechError Unit) = .error (.ackError .TOO_LATE)) ∧
          (sampleDownlink.to_pull_resp true).isSome = true)) :=
  ⟨rfl, c4_rx2_policy sampleDownlink
    (.error (.ackError .TOO_LATE)) (.ok ()) 1 rfl⟩

/-- C5: if any sub-step of building a row's `RoutingEntry` fails — a filter
blob fails to parse, a URI fails to parse, or a router client fails to
instantiate — the row's construction fails, and `handle_routing_update`
skips exactly that row: the resulting table is the one obtained with the
row absent, so any prior entry for its OUI stays in place and all remaining
rows of the update still apply. -/
theorem c5_row_skipped (parse_eui : Blob → Except RtError EuiFilter)
    (parse_devaddr : Blob → Except RtError DevAddrFilter)
    (parse_uri : Blob → Except RtError Nat)
    (mk_client : Nat → Except RtError RouterClient) (row : ProtoRouting)
    (hfail :
      (∃ b ∈ row.filters, ∃ e, parse_eui b = .error e) ∨
      (∃ b ∈ row.subnets, ∃ e, parse_devaddr b = .error e) ∨
      (∃ a ∈ row.addresses,
        (∃ e, parse_uri a = .error e) ∨
        (∃ u e, parse_uri a = .ok u ∧ mk_client u = .error e))) :
    (∃ e, Routing.from_proto parse_eui parse_devaddr parse_uri mk_client row =
      .error e) ∧
    ∀ (s : RouterState) (hgt : Nat) (l₁ l₂ : List ProtoRouting),
      (handle_routing_update
        (Routing.from_proto parse_eui parse_devaddr parse_uri mk_client) s
        ⟨hgt, l₁ ++ row :: l₂⟩).1.clients =
      (handle_routing_update
        (Routing.from_proto parse_eui parse_devaddr parse_uri mk_client) s
        ⟨hgt, l₁ ++ l₂⟩).1.clients := by
  have hf := from_proto_error_of_substep parse_eui parse_devaddr parse_uri
    mk_client row hfail
  refine ⟨hf, ?_⟩
  rcases hf with ⟨e, he⟩
  intro s hgt l₁ l₂
  exact apply_routings_skip _ row e he s.clients l₁ l₂

/-- A filter-blob parser that rejects every blob. -/
def peErr : Blob → Except RtError EuiFilter := fun _ => .error .parse

/-- A subnet-blob parser that accepts every blob. -/
def pdOk : Blob → Except RtError DevAddrFilter := fun _ => .ok fun _ => false

/-- A URI parser that accepts every blob. -/
def puOk : Blob → Except RtError Nat := fun _ => .ok 0

/-- A client constructor that accepts every URI. -/
def mkOk : Nat → Except RtError RouterClient := fun u => .ok ⟨u⟩

/-- A row with one filter blob (which `peErr` rejects). -/
def rowBadFilter : ProtoRouting := ⟨5, [[0]], [], []⟩

/-- Concrete instance of C5: a row whose only filter blob fails to parse is
skipped by the update. -/
theorem c5_witness :
    (∃ b ∈ rowBadFilter.filters, ∃ e, peErr b = .error e) ∧
    ((∃ e, Routing.from_proto peErr pdOk puOk mkOk rowBadFilter = .error e) ∧
      ∀ (s : RouterState) (hgt : Nat) (l₁ l₂ : List ProtoRouting),
        (handle_routing_update (Routing.from_proto peErr pdOk puOk mkOk) s
          ⟨hgt, l₁ ++ rowBadFilter :: l₂⟩).1.clients =
        (handle_routing_update (Routing.from_proto peErr pdOk puOk mkOk) s
          ⟨hgt, l₁ ++ l₂⟩).1.clients) :=
  ⟨⟨[0], by simp [rowBadFilter], .parse, rfl⟩,
   c5_row_skipped peErr pdOk puOk mkOk rowBadFilter
    (Or.inl ⟨[0], by simp [rowBadFilter], .parse, rfl⟩)⟩

/-- C6 counterexample: a clean closure of the routing stream (`Ok(None)`)
does not stop the Router — the run-loop iteration only logs and continues
with the state unchanged — refuting the claim that clean closure is fatal. -/
theorem c6_counterexample :
    run_step fpOk signOk sampleState (.routingMsg (.ok none)) =
      .continueLoop sampleState ∧
    StepOutcome.continueLoop sampleState ≠ .returnOk ∧
    StepOutcome.continueLoop sampleState ≠ .panicked :=
  ⟨rfl, fun h => StepOutcome.noConfusion h, fun h => StepOutcome.noConfusion h⟩

/-- C6 (amended): only an error on the routing stream is fatal (the Router
panics); a clean closure (`Ok(None)`) is logged and the main loop continues
with the state unchanged. -/
theorem c6_amended (from_proto : ProtoRouting → Except RtError Routing)
    (sign_msg : LinkPacket → Except RtError Message)
    (s : RouterState) (e : RtError) :
    run_step from_proto sign_msg s (.routingMsg (.error e)) = .panicked ∧
    run_step from_proto sign_msg s (.routingMsg (.ok none)) = .continueLoop s :=
  ⟨rfl, rfl⟩

/-- C7: the Router signs at most once per uplink (never once per target),
every fan-out task receives exactly that single signed envelope, and an
uplink without routing information is dropped with zero sign attempts and
zero fan-out tasks. -/
theorem c7_sign_once (sign_msg : LinkPacket → Except RtError Message)
    (s : RouterState) (uplink : LinkPacket) :
    (handle_uplink sign_msg s uplink).signAttempts ≤ 1 ∧
    (∀ t ∈ (handle_uplink sign_msg s uplink).spawned,
      sign_msg uplink = .ok t.2) ∧
    (uplink.packet.routing = none →
      handle_uplink sign_msg s uplink = ⟨0, [], .ok ()⟩) := by
  rcases hr : uplink.packet.routing with _ | ri
  · refine ⟨?_, ?_, fun _ => ?_⟩ <;> simp [handle_uplink, hr]
  · rcases hm : sign_msg uplink with e | msg
    · refine ⟨?_, ?_, fun hcon => ?_⟩
      · simp [handle_uplink, hr, hm]
      · simp [handle_uplink, hr, hm]
      · cases hcon
    · refine ⟨?_, ?_, fun hcon => ?_⟩
      · simp [handle_uplink, hr, hm]
      · intro t ht
        simp only [handle_uplink, hr, hm, Option.isNone_some,
          Bool.false_eq_true, if_false] at ht
        rcases List.mem_map.mp ht with ⟨c, _, rfl⟩
        rfl
      · cases hcon

/-- Concrete instance of C7: an uplink without routing information yields
zero sign attempts and zero fan-out tasks. -/
theorem c7_witness :
    (handle_uplink signOk sampleState sampleUplinkNoRouting).signAttempts ≤ 1 ∧
    (∀ t ∈ (handle_uplink signOk sampleState sampleUplinkNoRouting).spawned,
      signOk sampleUplinkNoRouting = .ok t.2) ∧
    (sampleUplinkNoRouting.packet.routing = none →
      handle_uplink signOk sampleState sampleUplinkNoRouting = ⟨0, [], .ok ()⟩) :=
  c7_sign_once signOk sampleState sampleUplinkNoRouting

/-- C8: a `PacketReceived` event whose lifted `LinkPacket` is a LongFi frame
sends nothing on the `uplinks` queue, and the enqueued packets are exactly
the successfully lifted non-LongFi packets of `PacketReceived` events. -/
theorem c8_longfi_drop (lift : Nat → Nat → Except RtError LinkPacket)
    (event : Event) :
    (∀ rxpk mac packet, event = .packetReceived rxpk mac →
      lift rxpk mac = .ok packet → packet.is_longfi = true →
      handle_udp_event lift event = []) ∧
    (∀ q, q ∈ handle_udp_event lift event ↔
      ∃ rxpk mac, event = .packetReceived rxpk mac ∧
        lift rxpk mac = .ok q ∧ q.is_longfi = false) := by
  constructor
  · rintro rxpk mac packet rfl hlift hlf
    simp [handle_udp_event, hlift, hlf]
  · intro q
    cases event
    case packetReceived rxpk mac =>
      rcases hlift : lift rxpk mac with e | packet
      · constructor
        · intro hq
          simp [handle_udp_event, hlift] at hq
        · rintro ⟨rxpk', mac', heq, hok, -⟩
          cases heq
          rw [hlift] at hok
          cases hok
      · by_cases hlf : packet.is_longfi = true
        · constructor
          · intro hq
            simp [handle_udp_event, hlift, hlf] at hq
          · rintro ⟨rxpk', mac', heq, hok, hnl⟩
            cases heq
            rw [hlift] at hok
            injection hok with hq
            subst hq
            simp [hlf] at hnl
        · constructor
          · intro hq
            have hq' : q = packet := by
              simpa [handle_udp_event, hlift, hlf] using hq
            subst hq'
            exact ⟨rxpk, mac, rfl, hlift, by simpa using hlf⟩
          · rintro ⟨rxpk', mac', heq, hok, -⟩
            cases heq
            rw [hlift] at hok
            injection hok with hq
            subst hq
            simp [handle_udp_event, hlift, hlf]
    all_goals
      constructor
      · intro hq
        simp [handle_udp_event] at hq
      · rintro ⟨rxpk', mac', heq, -, -⟩
        cases heq

/-- A lift that produces a LongFi-tagged packet for every RXPK. -/
def liftLongfi : Nat → Nat → Except RtError LinkPacket :=
  fun _ mac => .ok
    { gateway_mac := mac, packet := ⟨none⟩, longfi := true,
      pull_resp := fun _ => none }

/-- Concrete instance of C8: a `PacketReceived` event lifting to a LongFi
frame enqueues nothing. -/
theorem c8_witness :
    (∀ rxpk mac packet,
      (Event.packetReceived 0 1 : Event) = .packetReceived rxpk mac →
      liftLongfi rxpk mac = .ok packet → packet.is_longfi = true →
      handle_udp_event liftLongfi (.packetReceived 0 1) = []) ∧
    (∀ q, q ∈ handle_udp_event liftLongfi (.packetReceived 0 1) ↔
      ∃ rxpk mac, (Event.packetReceived 0 1 : Event) = .packetReceived rxpk mac ∧
        liftLongfi rxpk mac = .ok q ∧ q.is_longfi = false) :=
  c8_longfi_drop liftLongfi (.packetReceived 0 1)

/-- C9: `handle_downlink` unwraps the RX1 conversion unconditionally, so for
any downlink whose `to_pull_resp(false)` yields nothing it panics (modelled
as `none`) instead of logging and dropping — whatever the dispatch
outcomes. -/
theorem c9_rx1_unwrap_panic (downlink : LinkPacket)
    (rx1_out rx2_out : Except SemtechError Unit)
    (h : downlink.to_pull_resp false = none) :
    handle_downlink downlink rx1_out rx2_out = none := by
  unfold handle_downlink
  rw [h]

/-- Concrete instance of C9: a downlink with no RX1 form panics. -/
theorem c9_witness :
    sampleDownlinkNoRx1.to_pull_resp false = none ∧
    handle_downlink sampleDownlinkNoRx1 (.ok ()) (.ok ()) = none :=
  ⟨rfl, c9_rx1_unwrap_panic sampleDownlinkNoRx1 (.ok ()) (.ok ()) rfl⟩

/-- C10: an uplink whose routing field is present but carries no data is not
dropped early — the envelope is still built and signed (one sign attempt) —
yet the match returns no clients at all: the default routers are not used
and zero fan-out tasks are spawned. -/
theorem c10_no_data (sign_msg : LinkPacket → Except RtError Message)
    (s : RouterState) (uplink : LinkPacket)
    (h : uplink.packet.routing = some ⟨none⟩) :
    (handle_uplink sign_msg s uplink).signAttempts = 1 ∧
    (handle_uplink sign_msg s uplink).spawned = [] ∧
    router_clients_for_uplink s uplink = [] := by
  have hclients : router_clients_for_uplink s uplink = [] := by
    simp only [router_clients_for_uplink, h]
  rcases hm : sign_msg uplink with e | msg
  · refine ⟨?_, ?_, hclients⟩ <;> simp [handle_uplink, h, hm]
  · refine ⟨?_, ?_, hclients⟩ <;> simp [handle_uplink, h, hm, hclients]

/-- Concrete instance of C10: the sample state has a nonempty default
router list, yet an uplink with empty routing data targets no one. -/
theorem c10_witness :
    sampleUplinkNoData.packet.routing = some ⟨none⟩ ∧
    ((handle_uplink signOk sampleState sampleUplinkNoData).signAttempts = 1 ∧
      (handle_uplink signOk sampleState sampleUplinkNoData).spawned = [] ∧
      router_clients_for_uplink sampleState sampleUplinkNoData = []) :=
  ⟨rfl, c10_no_data signOk sampleState sampleUplinkNoData rfl⟩

end GatewayRs
